import Mathlib

/-!
Shallow embedding of the VoiceOfCode student-complaint portal.

The definitions below are transcribed from the repository's source:
* `checkAdminRole` — `src/contexts/AuthContext.tsx`
* the row-level security policies and the `handle_new_user` trigger —
  the SQL migrations
* `handleFileChange`, `uploadFile`/`handleSubmit` — the student dashboard
* `filterComplaints`, `fetchComplaints` merge, `handleUpdateComplaint` —
  `src/pages/AdminDashboard.tsx`
* `createAdminHandler` — the `create-admin` edge function
-/

namespace VoiceOfCode

/-- The reserved bootstrap admin address, hardcoded in
`AuthContext.tsx`, the `handle_new_user` trigger and the edge function. -/
def bootstrapEmail : String := "admin@brototype.com"

/-! ## Role resolution (`checkAdminRole`, AuthContext.tsx) -/

/-- Outcome of the `user_roles` query
`.eq("user_id", userId).eq("role", "admin").maybeSingle()`:
either it resolves with a data/error pair (`ok found` means `!error && data`,
`queryError` means the `error` field was set), or the awaited call throws. -/
inductive RoleQueryOutcome
  | ok (found : Bool)
  | queryError
  | thrown
deriving DecidableEq, Repr

/-- What `checkAdminRole` leaves behind: the `isAdmin` state it sets,
whether the `user_roles` table was queried at all, and whether any error
was surfaced to the user (the source only writes to the console;
it never raises a toast or rethrows). -/
structure RoleCheckResult where
  isAdmin : Bool
  queriedTable : Bool
  surfacedToUser : Bool
deriving DecidableEq, Repr

/-- `checkAdminRole(userId, userEmail)` from `AuthContext.tsx`:
if `userEmail === 'admin@brototype.com'` it sets `isAdmin = true` and
returns before the query; otherwise it queries `user_roles` and sets
`isAdmin` to `!error && data`; a thrown exception is caught and sets
`isAdmin = false`. -/
def checkAdminRole (userEmail : Option String) (q : RoleQueryOutcome) :
    RoleCheckResult :=
  if userEmail = some bootstrapEmail then
    { isAdmin := true, queriedTable := false, surfacedToUser := false }
  else
    match q with
    | .ok found => { isAdmin := found, queriedTable := true, surfacedToUser := false }
    | .queryError => { isAdmin := false, queriedTable := true, surfacedToUser := false }
    | .thrown => { isAdmin := false, queriedTable := true, surfacedToUser := false }

/-! ## Data model (SQL migration) -/

/-- `public.app_role` enum. -/
inductive AppRole
  | admin
  | student
deriving DecidableEq, Repr

/-- `public.complaint_status` enum. -/
inductive ComplaintStatus
  | pending
  | underReview
  | resolved
deriving DecidableEq, Repr

/-- The string literal each `complaint_status` value renders as
(`'Pending' | 'Under Review' | 'Resolved'` in the client). -/
def statusText : ComplaintStatus → String
  | .pending => "Pending"
  | .underReview => "Under Review"
  | .resolved => "Resolved"

/-- A row of `public.user_roles` (the `id`/`created_at` columns play no
role in any policy and are omitted). -/
structure RoleRow where
  user_id : String
  role : AppRole
deriving DecidableEq, Repr

/-- A row of `public.profiles`. -/
structure ProfileRow where
  id : String
  full_name : String
  email : String
deriving DecidableEq, Repr

/-- A row of `public.complaints` (timestamps omitted; no claim below
depends on them). -/
structure ComplaintRow where
  id : String
  user_id : String
  title : String
  category : String
  description : String
  file_url : Option String
  status : ComplaintStatus
  admin_remarks : Option String
deriving DecidableEq, Repr

/-- `public.has_role(_user_id, _role)`: `EXISTS (SELECT 1 FROM user_roles
WHERE user_id = _user_id AND role = _role)`. -/
def has_role (roles : List RoleRow) (uid : String) (r : AppRole) : Bool :=
  roles.any fun row => row.user_id = uid ∧ row.role = r

/-! ## Row-level security policies on `public.complaints` -/

/-- Policy "Students can update their own pending complaints":
`USING (auth.uid() = user_id AND status = 'Pending')`. -/
def studentUpdatePolicy (uid : String) (c : ComplaintRow) : Bool :=
  uid = c.user_id ∧ c.status = .pending

/-- Policy "Admins can update all complaints":
`USING (public.has_role(auth.uid(), 'admin'))`. -/
def adminUpdatePolicy (roles : List RoleRow) (uid : String) : Bool :=
  has_role roles uid .admin

/-- Postgres combines permissive policies for the same command with OR:
an UPDATE on a complaint row is permitted iff the student policy or the
admin policy accepts it. -/
def canUpdateComplaint (roles : List RoleRow) (uid : String)
    (c : ComplaintRow) : Bool :=
  studentUpdatePolicy uid c || adminUpdatePolicy roles uid

/-- Policy "Students can delete their own pending complaints" is the only
DELETE policy on `public.complaints`:
`USING (auth.uid() = user_id AND status = 'Pending')`. -/
def canDeleteComplaint (uid : String) (c : ComplaintRow) : Bool :=
  uid = c.user_id ∧ c.status = .pending

/-! ## Identity-creation trigger (`handle_new_user`, second migration) -/

/-- The `NEW` row of `auth.users` visible to the trigger: id, email, and
the `raw_user_meta_data->>'full_name'` field (absent when the metadata
key is missing). -/
structure NewUser where
  id : String
  email : String
  full_name_meta : Option String
deriving DecidableEq, Repr

/-- The rows the trigger function inserts. -/
structure TriggerEffect where
  profileInserts : List ProfileRow
  roleInserts : List RoleRow
deriving DecidableEq, Repr

/-- `public.handle_new_user()` (the second migration's version, which
replaced the first): inserts one `profiles` row using
`COALESCE(raw_user_meta_data->>'full_name', 'User')`, then one
`user_roles` row with role `admin` when `NEW.email = 'admin@brototype.com'`
and `student` otherwise. -/
def handle_new_user (u : NewUser) : TriggerEffect :=
  { profileInserts := [{ id := u.id, full_name := u.full_name_meta.getD "User",
                         email := u.email }],
    roleInserts := [{ user_id := u.id,
                      role := if u.email = bootstrapEmail then .admin else .student }] }

/-! ## Student submission pipeline (StudentDashboard) -/

/-- A browser `File` value as the dashboard sees it: name, byte size,
MIME type. -/
structure FileData where
  name : String
  size : Nat
  mime : String
deriving DecidableEq, Repr

/-- The `10 * 1024 * 1024` client-side size bound in `handleFileChange`. -/
def maxFileSize : Nat := 10 * 1024 * 1024

/-- The `allowed_mime_types` array of the `complaint-files` storage
bucket (migration `20251111001955…`). -/
def allowedMimeTypes : List String :=
  ["image/jpeg", "image/png", "image/gif", "image/webp", "application/pdf",
   "application/msword",
   "application/vnd.openxmlformats-officedocument.wordprocessingml.document"]

/-- The bucket's `file_size_limit` (10485760 bytes). -/
def bucketFileSizeLimit : Nat := 10485760

/-- Server-side acceptance by the `complaint-files` bucket: the object
must be within `file_size_limit` and its MIME type must be in
`allowed_mime_types`. -/
def bucketAccepts (f : FileData) : Bool :=
  decide (f.size ≤ bucketFileSizeLimit) && allowedMimeTypes.contains f.mime

/-- `handleFileChange`: takes the current `file` state and the selected
file (if any); a selection larger than 10MB is rejected (toast only, the
state is left as it was), otherwise the selection becomes the new state.
No network request is involved. -/
def handleFileChange (current : Option FileData) (selected : Option FileData) :
    Option FileData :=
  match selected with
  | none => current
  | some f => if f.size > maxFileSize then current else some f

/-- `complaintSchema` checks (zod): title trimmed to length in [5, 200],
category in the fixed enum, description trimmed to length in [20, 2000].
Violations surface the first failing message, in schema key order. -/
def categoryValues : List String :=
  ["Technical", "Academic", "Behavior", "Facility", "Other"]

/-- JavaScript `String.prototype.trim` (what zod's `.trim()` applies):
strips leading and trailing whitespace. -/
def jsTrim (s : String) : String :=
  ⟨((s.data.dropWhile Char.isWhitespace).reverse.dropWhile Char.isWhitespace).reverse⟩

/-- The validated payload produced by `complaintSchema.parse`. -/
structure ValidatedComplaint where
  title : String
  category : String
  description : String
deriving DecidableEq, Repr

/-- `complaintSchema.parse({title, category, description})`: trims title
and description, enforces the length bounds and the category enum,
failing with the first violated constraint's message. -/
def complaintSchemaParse (title category description : String) :
    Except String ValidatedComplaint :=
  let t := jsTrim title
  let d := jsTrim description
  if t.length < 5 then .error "Title must be at least 5 characters"
  else if t.length > 200 then .error "String must contain at most 200 character(s)"
  else if ¬ categoryValues.contains category then .error "Invalid enum value"
  else if d.length < 20 then .error "Description must be at least 20 characters"
  else if d.length > 2000 then .error "String must contain at most 2000 character(s)"
  else .ok { title := t, category := category, description := d }

/-- Outcome of the storage upload inside `uploadFile`: the provider either
returns a public URL or an upload error. -/
inductive UploadOutcome
  | success (publicUrl : String)
  | failure
deriving DecidableEq, Repr

/-- Outcome of the `complaints` insert. -/
inductive InsertOutcome
  | ok
  | err
deriving DecidableEq, Repr

/-- How a call to `handleSubmit` ends. -/
inductive SubmitOutcome
  | validationError (msg : String)
  | uploadFailed
  | insertError
  | success
deriving DecidableEq, Repr

/-- The complaint insert payload issued by `handleSubmit`, after the
database has applied its column defaults (`status DEFAULT 'Pending'`,
`admin_remarks` null). -/
structure NewComplaintRow where
  user_id : String
  title : String
  category : String
  description : String
  file_url : Option String
  status : ComplaintStatus
  admin_remarks : Option String
deriving DecidableEq, Repr

/-- The observable effects of one `handleSubmit` call: how it ended,
which file (if any) was sent to storage, whether a `complaints` insert
was issued, which row was created, and the toast shown on failure. -/
structure SubmitResult where
  outcome : SubmitOutcome
  uploadAttempted : Option FileData
  insertIssued : Bool
  rowCreated : Option NewComplaintRow
  surfacedError : Option String
deriving DecidableEq, Repr

/-- `handleSubmit` composed with `uploadFile`: validate with
`complaintSchema`; if a file is staged, upload it first — on upload
failure toast "Failed to upload file" and return before the insert; on
success (or with no file) insert the complaint row, whose `status`
defaults to Pending and `admin_remarks` to null; an insert error toasts
"Failed to submit complaint". -/
def handleSubmit (uid : String) (title category description : String)
    (file : Option FileData) (upload : UploadOutcome) (ins : InsertOutcome) :
    SubmitResult :=
  match complaintSchemaParse title category description with
  | .error m =>
    { outcome := .validationError m, uploadAttempted := none,
      insertIssued := false, rowCreated := none, surfacedError := some m }
  | .ok v =>
    let insertWith (url : Option FileData → Option String)
        (sent : Option FileData) : SubmitResult :=
      match ins with
      | .err =>
        { outcome := .insertError, uploadAttempted := sent, insertIssued := true,
          rowCreated := none, surfacedError := some "Failed to submit complaint" }
      | .ok =>
        { outcome := .success, uploadAttempted := sent, insertIssued := true,
          rowCreated := some { user_id := uid, title := v.title,
                               category := v.category, description := v.description,
                               file_url := url sent, status := .pending,
                               admin_remarks := none },
          surfacedError := none }
    match file with
    | some f =>
      match upload with
      | .failure =>
        { outcome := .uploadFailed, uploadAttempted := some f,
          insertIssued := false, rowCreated := none,
          surfacedError := some "Failed to upload file" }
      | .success url => insertWith (fun _ => some url) (some f)
    | none => insertWith (fun _ => none) none

/-! ## Admin dashboard (AdminDashboard.tsx) -/

/-- `filterComplaints`: copies the list, filters by status equality when
the status filter is not `"all"`, then by category equality when the
category filter is not `"all"` (client statuses are the strings produced
by `statusText`). -/
def filterComplaints (statusFilter categoryFilter : String)
    (complaints : List ComplaintRow) : List ComplaintRow :=
  let filtered := complaints
  let filtered :=
    if statusFilter ≠ "all" then
      filtered.filter fun c => statusText c.status = statusFilter
    else filtered
  let filtered :=
    if categoryFilter ≠ "all" then
      filtered.filter fun c => c.category = categoryFilter
    else filtered
  filtered

/-- The client-side merge in `fetchComplaints`: each complaint is paired
with `profilesData.find(p => p.id === complaint.user_id) || null`. -/
def mergeProfiles (complaints : List ComplaintRow) (profiles : List ProfileRow) :
    List (ComplaintRow × Option ProfileRow) :=
  complaints.map fun c => (c, profiles.find? fun p => p.id = c.user_id)

/-- The listing's submitter name: `complaint.profiles?.full_name || "Unknown"`
(JavaScript `||` also replaces an empty string). -/
def renderedName (p : Option ProfileRow) : String :=
  match p with
  | none => "Unknown"
  | some prof => if prof.full_name = "" then "Unknown" else prof.full_name

/-- The listing's submitter email: `complaint.profiles?.email || "N/A"`. -/
def renderedEmail (p : Option ProfileRow) : String :=
  match p with
  | none => "N/A"
  | some prof => if prof.email = "" then "N/A" else prof.email

/-- The UPDATE payload sent by `handleUpdateComplaint`:
`{ status: newStatus, admin_remarks: adminRemarks || null }` — the
JavaScript `||` turns an empty remarks string into null. -/
structure UpdatePayload where
  status : ComplaintStatus
  admin_remarks : Option String
deriving DecidableEq, Repr

/-- `handleUpdateComplaint`'s payload construction. -/
def handleUpdateComplaint (newStatus : ComplaintStatus) (adminRemarks : String) :
    UpdatePayload :=
  { status := newStatus,
    admin_remarks := if adminRemarks = "" then none else some adminRemarks }

/-- The database applying an admin UPDATE payload to a complaint row
(only `status` and `admin_remarks` are in the payload; the
`update_updated_at_column` trigger touches only the timestamp, which is
not modelled). -/
def applyUpdate (c : ComplaintRow) (p : UpdatePayload) : ComplaintRow :=
  { c with status := p.status, admin_remarks := p.admin_remarks }

/-! ## `create-admin` edge function -/

/-- An `auth.users` entry as returned by `auth.admin.listUsers()`. -/
structure AuthUser where
  id : String
  email : String
deriving DecidableEq, Repr

/-- The argument of an `auth.admin.createUser` call. -/
structure CreateUserRequest where
  email : String
  password : String
  email_confirm : Bool
  full_name : String
deriving DecidableEq, Repr

/-- The HTTP response of the edge function. -/
inductive CreateAdminResponse
  | alreadyExists
  | created (id : String) (email : String)
  | errorResp (msg : String)
deriving DecidableEq, Repr

/-- Outcome of the provider's `createUser` call. -/
inductive CreateOutcome
  | ok (newId : String)
  | err (msg : String)
deriving DecidableEq, Repr

/-- What one invocation of the edge function does: its response and the
`createUser` calls it issued. -/
structure CreateAdminResult where
  response : CreateAdminResponse
  createCalls : List CreateUserRequest
deriving DecidableEq, Repr

/-- The `Deno.serve` handler of the `create-admin` function (non-OPTIONS
path): list users; if any has the bootstrap email, respond "Admin account
already exists" without further calls; otherwise create the account with
email `admin@brototype.com`, password `password123`, `email_confirm:
true` and full name `Admin`, responding 200 on success and 400 when the
creation errors. -/
def createAdminHandler (users : List AuthUser) (create : CreateOutcome) :
    CreateAdminResult :=
  if users.any (fun u => u.email = bootstrapEmail) then
    { response := .alreadyExists, createCalls := [] }
  else
    let req : CreateUserRequest :=
      { email := bootstrapEmail, password := "password123",
        email_confirm := true, full_name := "Admin" }
    match create with
    | .ok newId =>
      { response := .created newId bootstrapEmail, createCalls := [req] }
    | .err m =>
      { response := .errorResp m, createCalls := [req] }

/-! ## Theorems -/

/-- C1: for every authenticated identity whose email equals the reserved
bootstrap address, `checkAdminRole` yields `isAdmin = true` regardless of
the `user_roles` query outcome, and the email check is evaluated first —
the table is never queried on this path. -/
theorem C1_bootstrap_email_admin_without_query (q : RoleQueryOutcome) :
    (checkAdminRole (some bootstrapEmail) q).isAdmin = true ∧
    (checkAdminRole (some bootstrapEmail) q).queriedTable = false := by
  constructor <;> simp [checkAdminRole]

/-- C2: for every identity whose email is not the bootstrap address,
`checkAdminRole` yields `isAdmin = true` iff the `user_roles` query
succeeds and finds an `(identity, admin)` row; a missing row, a query
error, or a thrown exception all yield `isAdmin = false`, and no failure
is surfaced to the user. -/
theorem C2_non_bootstrap_role_table_fail_closed (e : Option String)
    (q : RoleQueryOutcome) (h : e ≠ some bootstrapEmail) :
    ((checkAdminRole e q).isAdmin = true ↔ q = .ok true) ∧
    (checkAdminRole e q).surfacedToUser = false := by
  unfold checkAdminRole
  rw [if_neg h]
  cases q with
  | ok found => cases found <;> simp
  | queryError => simp
  | thrown => simp

/-- Witness for C2 at a concrete non-bootstrap email and a query that
finds the admin row. -/
theorem C2_non_bootstrap_role_table_fail_closed_witness :
    ((checkAdminRole (some "student@example.com") (.ok true)).isAdmin = true ↔
      (RoleQueryOutcome.ok true) = .ok true) ∧
    (checkAdminRole (some "student@example.com") (.ok true)).surfacedToUser = false :=
  C2_non_bootstrap_role_table_fail_closed (some "student@example.com") (.ok true)
    (by decide)

/-- C3: for a student identity (one holding no `admin` role row), the
row-level policies permit an UPDATE or DELETE of a complaint iff the
student owns the row and its status is Pending; every other combination
is rejected by the policies themselves. -/
theorem C3_student_update_delete_requires_owner_pending
    (roles : List RoleRow) (uid : String) (c : ComplaintRow)
    (h : has_role roles uid .admin = false) :
    (canUpdateComplaint roles uid c = true ↔
      uid = c.user_id ∧ c.status = .pending) ∧
    (canDeleteComplaint uid c = true ↔
      uid = c.user_id ∧ c.status = .pending) := by
  constructor
  · simp [canUpdateComplaint, studentUpdatePolicy, adminUpdatePolicy, h]
  · simp [canDeleteComplaint]

/-- Witness for C3: a role table with only a student row, an owner id and
a pending complaint. -/
theorem C3_student_update_delete_requires_owner_pending_witness :
    (canUpdateComplaint [⟨"u1", .student⟩] "u1"
        ⟨"c1", "u1", "t", "Technical", "d", none, .pending, none⟩ = true ↔
      "u1" = "u1" ∧ ComplaintStatus.pending = .pending) ∧
    (canDeleteComplaint "u1"
        ⟨"c1", "u1", "t", "Technical", "d", none, .pending, none⟩ = true ↔
      "u1" = "u1" ∧ ComplaintStatus.pending = .pending) :=
  C3_student_update_delete_requires_owner_pending [⟨"u1", .student⟩] "u1"
    ⟨"c1", "u1", "t", "Technical", "d", none, .pending, none⟩ (by decide)

/-- C6: an admin triage update may set any status from any prior status —
the admin UPDATE policy accepts every row regardless of its current
status — the updated row carries exactly the requested status, empty
remarks are stored as null, and nonempty remarks are stored verbatim. -/
theorem C6_admin_any_transition_empty_remarks_null
    (roles : List RoleRow) (uid : String) (c : ComplaintRow)
    (s : ComplaintStatus) (r : String)
    (h : has_role roles uid .admin = true) :
    canUpdateComplaint roles uid c = true ∧
    (applyUpdate c (handleUpdateComplaint s r)).status = s ∧
    (applyUpdate c (handleUpdateComplaint s "")).admin_remarks = none ∧
    (r ≠ "" → (applyUpdate c (handleUpdateComplaint s r)).admin_remarks = some r) := by
  refine ⟨?_, rfl, rfl, fun hr => ?_⟩
  · simp [canUpdateComplaint, adminUpdatePolicy, h]
  · simp [applyUpdate, handleUpdateComplaint, hr]

/-- Witness for C6: an admin re-opening a Resolved complaint with
nonempty remarks. -/
theorem C6_admin_any_transition_empty_remarks_null_witness :
    canUpdateComplaint [⟨"a1", .admin⟩] "a1"
        ⟨"c1", "u1", "t", "Other", "d", none, .resolved, some "done"⟩ = true ∧
    (applyUpdate ⟨"c1", "u1", "t", "Other", "d", none, .resolved, some "done"⟩
        (handleUpdateComplaint .pending "reopening")).status = .pending ∧
    (applyUpdate ⟨"c1", "u1", "t", "Other", "d", none, .resolved, some "done"⟩
        (handleUpdateComplaint .pending "")).admin_remarks = none ∧
    ("reopening" ≠ "" →
      (applyUpdate ⟨"c1", "u1", "t", "Other", "d", none, .resolved, some "done"⟩
          (handleUpdateComplaint .pending "reopening")).admin_remarks =
        some "reopening") :=
  C6_admin_any_transition_empty_remarks_null [⟨"a1", .admin⟩] "a1"
    ⟨"c1", "u1", "t", "Other", "d", none, .resolved, some "done"⟩
    .pending "reopening" (by decide)

/-- C7: the identity-creation trigger inserts exactly one Profile row and
exactly one RoleAssignment row, both keyed by the new identity's id, and
the assigned role is admin iff the new identity's email equals the
reserved bootstrap address (student otherwise). -/
theorem C7_trigger_one_profile_one_role (u : NewUser) :
    (handle_new_user u).profileInserts.length = 1 ∧
    (handle_new_user u).roleInserts.length = 1 ∧
    (handle_new_user u).profileInserts.all (fun p => p.id = u.id) = true ∧
    (handle_new_user u).roleInserts.all (fun r => r.user_id = u.id) = true ∧
    ((handle_new_user u).roleInserts.any (fun r => r.role = .admin) = true ↔
      u.email = bootstrapEmail) ∧
    ((handle_new_user u).roleInserts.any (fun r => r.role = .student) = true ↔
      u.email ≠ bootstrapEmail) := by
  by_cases h : u.email = bootstrapEmail <;>
    simp [handle_new_user, h]

/-- C8: `filterComplaints` is a pure function of the list and the two
filter values; it is idempotent, the status and category predicates
commute, and the double wildcard returns the input list unchanged. -/
theorem C8_filter_idempotent_commutative_wildcard
    (s c : String) (l : List ComplaintRow) :
    filterComplaints s c (filterComplaints s c l) = filterComplaints s c l ∧
    filterComplaints "all" c (filterComplaints s "all" l) =
      filterComplaints s "all" (filterComplaints "all" c l) ∧
    filterComplaints "all" "all" l = l := by
  refine ⟨?_, ?_, by simp [filterComplaints]⟩
  · by_cases hs : s = "all" <;> by_cases hc : c = "all" <;>
      simp [filterComplaints, hs, hc, List.filter_filter]
    exact List.filter_congr fun a _ => by
      cases h1 : decide (a.category = c) <;>
        cases h2 : decide (statusText a.status = s) <;> rfl
  · by_cases hs : s = "all" <;> by_cases hc : c = "all" <;>
      simp [filterComplaints, hs, hc, List.filter_filter]
    exact List.filter_congr fun a _ => Bool.and_comm _ _

/-- C9: the admin merge pairs every complaint with the first profile whose
id equals its owner id; no complaint is dropped (the listing does not
fail), a complaint with no matching profile gets `none` and renders with
the placeholders "Unknown" / "N/A", and a matched complaint is annotated
with a fetched profile whose id equals its owner id. -/
theorem C9_merge_missing_profile_placeholders
    (cs : List ComplaintRow) (ps : List ProfileRow) :
    (mergeProfiles cs ps).length = cs.length ∧
    ∀ e ∈ mergeProfiles cs ps,
      (e.2 = none → renderedName e.2 = "Unknown" ∧ renderedEmail e.2 = "N/A") ∧
      ((∀ p ∈ ps, p.id ≠ e.1.user_id) → e.2 = none) ∧
      (∀ p, e.2 = some p → p ∈ ps ∧ p.id = e.1.user_id) ∧
      ((∃ p ∈ ps, p.id = e.1.user_id) → e.2 ≠ none) := by
  constructor
  · simp [mergeProfiles]
  · intro e he
    obtain ⟨c, _, rfl⟩ := List.mem_map.mp he
    refine ⟨fun h2 => by rw [h2]; exact ⟨rfl, rfl⟩, ?_, ?_, ?_⟩
    · intro hnone
      exact List.find?_eq_none.mpr fun p hp => by simpa using hnone p hp
    · intro p hp
      exact ⟨List.mem_of_find?_eq_some hp, by simpa using List.find?_some hp⟩
    · rintro ⟨p, hp, hpid⟩ hne
      rw [List.find?_eq_none] at hne
      exact hne p hp (by simpa using hpid)

/-- Witness for C9: a complaint with no fetched profile renders the
placeholders. -/
theorem C9_merge_missing_profile_placeholders_witness :
    renderedName ((⟨"c2", "u2", "t2", "Other", "d2", none, .pending, none⟩,
        (none : Option ProfileRow)) : ComplaintRow × Option ProfileRow).2 =
      "Unknown" ∧
    renderedEmail ((⟨"c2", "u2", "t2", "Other", "d2", none, .pending, none⟩,
        (none : Option ProfileRow)) : ComplaintRow × Option ProfileRow).2 =
      "N/A" :=
  ((C9_merge_missing_profile_placeholders
      [⟨"c2", "u2", "t2", "Other", "d2", none, .pending, none⟩]
      [⟨"u1", "Alice", "alice@example.com"⟩]).2
    (⟨"c2", "u2", "t2", "Other", "d2", none, .pending, none⟩, none)
    (by decide)).1 rfl

/-- C10: the `create-admin` edge function first checks whether an account
with the bootstrap email exists; if so it responds without issuing any
`createUser` call, and otherwise it issues exactly one `createUser` call
with the hardcoded email `admin@brototype.com`, the hardcoded password
`password123` and the email pre-confirmed. -/
theorem C10_create_admin_bootstrap_endpoint
    (users : List AuthUser) (create : CreateOutcome) :
    (users.any (fun u => u.email = bootstrapEmail) = true →
      createAdminHandler users create =
        { response := .alreadyExists, createCalls := [] }) ∧
    (users.any (fun u => u.email = bootstrapEmail) = false →
      (createAdminHandler users create).createCalls =
        [{ email := bootstrapEmail, password := "password123",
           email_confirm := true, full_name := "Admin" }]) := by
  constructor
  · intro h
    simp [createAdminHandler, h]
  · intro h
    cases create <;> simp [createAdminHandler, h]

/-- Witness for C10: with no users registered, the function issues the
hardcoded creation call. -/
theorem C10_create_admin_bootstrap_endpoint_witness :
    (createAdminHandler [] (.ok "n1")).createCalls =
      [{ email := bootstrapEmail, password := "password123",
         email_confirm := true, full_name := "Admin" }] :=
  (C10_create_admin_bootstrap_endpoint [] (.ok "n1")).2 (by decide)

/-- C5: when validation passes, a file is attached and the storage upload
fails, `handleSubmit` aborts the whole submission: it ends in the
upload-failed outcome, never issues the complaint insert, creates no row,
and surfaces the storage error toast. -/
theorem C5_upload_failure_aborts_submission
    (uid title category description : String) (f : FileData)
    (v : ValidatedComplaint) (ins : InsertOutcome)
    (hv : complaintSchemaParse title category description = .ok v) :
    (handleSubmit uid title category description (some f) .failure ins).outcome =
      .uploadFailed ∧
    (handleSubmit uid title category description (some f) .failure ins).insertIssued =
      false ∧
    (handleSubmit uid title category description (some f) .failure ins).rowCreated =
      none ∧
    (handleSubmit uid title category description (some f) .failure ins).surfacedError =
      some "Failed to upload file" := by
  simp [handleSubmit, hv]

/-- Witness for C5: a concrete valid submission whose attachment upload
fails. -/
theorem C5_upload_failure_aborts_submission_witness :
    (handleSubmit "u1" "Wifi down" "Technical"
        "The lab wifi has been down since Monday morning"
        (some ⟨"report.pdf", 2048, "application/pdf"⟩) .failure .ok).outcome =
      .uploadFailed ∧
    (handleSubmit "u1" "Wifi down" "Technical"
        "The lab wifi has been down since Monday morning"
        (some ⟨"report.pdf", 2048, "application/pdf"⟩) .failure .ok).insertIssued =
      false ∧
    (handleSubmit "u1" "Wifi down" "Technical"
        "The lab wifi has been down since Monday morning"
        (some ⟨"report.pdf", 2048, "application/pdf"⟩) .failure .ok).rowCreated =
      none ∧
    (handleSubmit "u1" "Wifi down" "Technical"
        "The lab wifi has been down since Monday morning"
        (some ⟨"report.pdf", 2048, "application/pdf"⟩) .failure .ok).surfacedError =
      some "Failed to upload file" :=
  C5_upload_failure_aborts_submission "u1" "Wifi down" "Technical"
    "The lab wifi has been down since Monday morning"
    ⟨"report.pdf", 2048, "application/pdf"⟩
    ⟨"Wifi down", "Technical", "The lab wifi has been down since Monday morning"⟩
    .ok (by rfl)

/-- Counterexample to C4 as stated: a small file whose MIME type is not
in the allow-list ("application/zip") passes the client-side checks —
`handleFileChange` stages it — and `handleSubmit` then sends it to
storage, so a network operation occurs on a file whose MIME type was
never validated client-side. -/
theorem C4_mime_not_validated_client_side :
    allowedMimeTypes.contains "application/zip" = false ∧
    handleFileChange none (some ⟨"payload.zip", 100, "application/zip"⟩) =
      some ⟨"payload.zip", 100, "application/zip"⟩ ∧
    (handleSubmit "u1" "Wifi down" "Technical"
        "The lab wifi has been down since Monday morning"
        (some ⟨"payload.zip", 100, "application/zip"⟩)
        (.success "https://storage/payload.zip") .ok).uploadAttempted =
      some ⟨"payload.zip", 100, "application/zip"⟩ := by
  refine ⟨by decide, by decide, by rfl⟩

/-- C4 (amended): a file larger than 10MB is rejected by `handleFileChange`
at selection time — the staged file is left unchanged and no network
operation is involved — so a submission whose file state came from that
rejection uploads nothing and any complaint row it creates carries no
attachment; the MIME allow-list is enforced only server-side by the
storage bucket (which also rejects the oversized file). -/
theorem C4_oversized_rejected_client_side (cur : Option FileData) (f : FileData)
    (h : f.size > maxFileSize) (uid title category description : String)
    (up : UploadOutcome) (ins : InsertOutcome) :
    handleFileChange cur (some f) = cur ∧
    (handleSubmit uid title category description
        (handleFileChange none (some f)) up ins).uploadAttempted = none ∧
    ((handleSubmit uid title category description
        (handleFileChange none (some f)) up ins).rowCreated.all
      fun row => row.file_url = none) = true ∧
    bucketAccepts f = false ∧
    (∀ g : FileData, allowedMimeTypes.contains g.mime = false →
      bucketAccepts g = false) := by
  have h1 : ∀ c0 : Option FileData, handleFileChange c0 (some f) = c0 := by
    intro c0
    show (if f.size > maxFileSize then c0 else some f) = c0
    rw [if_pos h]
  refine ⟨h1 cur, ?_, ?_, ?_, ?_⟩
  · rw [h1 none]
    cases hp : complaintSchemaParse title category description <;>
      cases ins <;> simp [handleSubmit, hp]
  · rw [h1 none]
    cases hp : complaintSchemaParse title category description <;>
      cases ins <;> simp [handleSubmit, hp]
  · have hle : ¬ f.size ≤ bucketFileSizeLimit := by
      simp only [maxFileSize] at h
      simp only [bucketFileSizeLimit]
      omega
    simp [bucketAccepts, hle]
  · intro g hg
    have hmem : g.mime ∉ allowedMimeTypes := by simpa using hg
    simp [bucketAccepts, hmem]

/-- Witness for the amended C4: a 15MB PDF is rejected at selection time
and a subsequent submission uploads nothing. -/
theorem C4_oversized_rejected_client_side_witness :
    handleFileChange none (some ⟨"big.pdf", 15728640, "application/pdf"⟩) =
      none ∧
    (handleSubmit "u1" "Wifi down" "Technical"
        "The lab wifi has been down since Monday morning"
        (handleFileChange none (some ⟨"big.pdf", 15728640, "application/pdf"⟩))
        (.success "https://storage/big.pdf") .ok).uploadAttempted = none ∧
    ((handleSubmit "u1" "Wifi down" "Technical"
        "The lab wifi has been down since Monday morning"
        (handleFileChange none (some ⟨"big.pdf", 15728640, "application/pdf"⟩))
        (.success "https://storage/big.pdf") .ok).rowCreated.all
      fun row => row.file_url = none) = true ∧
    bucketAccepts ⟨"big.pdf", 15728640, "application/pdf"⟩ = false ∧
    (∀ g : FileData, allowedMimeTypes.contains g.mime = false →
      bucketAccepts g = false) :=
  C4_oversized_rejected_client_side none
    ⟨"big.pdf", 15728640, "application/pdf"⟩ (by decide) "u1" "Wifi down"
    "Technical" "The lab wifi has been down since Monday morning"
    (.success "https://storage/big.pdf") .ok

end VoiceOfCode
